import Mathlib

set_option maxHeartbeats 1000000
set_option maxRecDepth 100000

namespace OrdalFilkom

/-! String helpers mirroring the Python string operations used by the repository. -/

/-- Python `s.lower()` (ASCII case folding, which covers every error string the
handler matches on). -/
def strLower (s : String) : String := String.mk (s.toList.map Char.toLower)

/-- Does `sub` occur as a contiguous run inside `hay`? (list form of Python `sub in hay`). -/
def listHasSub (hay sub : List Char) : Bool :=
  match hay with
  | [] => sub.isEmpty
  | c :: t => sub.isPrefixOf (c :: t) || listHasSub t sub

/-- Python `sub in hay` for strings. -/
def strContains (hay sub : String) : Bool := listHasSub hay.toList sub.toList

/-! Metadata extraction, from `src/utils.py` and `src/src/utils/metadata.py`
(the two copies of `get_meta` are textually identical in their logic). -/

/-- Python `os.path.basename` on a POSIX path: the part after the last slash. -/
def basename (path : String) : String :=
  String.mk ((path.data.reverse.takeWhile (fun c => c ≠ '/')).reverse)

/-- Python `os.path.dirname` on a POSIX path: the part before the last slash. -/
def dirname (path : String) : String :=
  String.mk (((path.data.reverse.dropWhile (fun c => c ≠ '/')).drop 1).reverse)

/-- Numeric value of an ASCII digit character. -/
def digitVal (c : Char) : Nat := c.toNat - 48

/-- The regex match `re.match(r"^(\d{4})_", file_name)` of `get_meta`: four leading
digits followed by an underscore.  Returns the captured four-digit group parsed as an
integer (`int(year_match.group(1))`), or `none` when the name does not match. -/
def yearMatch (file_name : String) : Option Nat :=
  match file_name.data with
  | c1 :: c2 :: c3 :: c4 :: c5 :: _ =>
    if c1.isDigit = true ∧ c2.isDigit = true ∧ c3.isDigit = true ∧ c4.isDigit = true ∧
        c5 = '_' then
      some (digitVal c1 * 1000 + digitVal c2 * 100 + digitVal c3 * 10 + digitVal c4)
    else none
  | _ => none

structure FileMeta where
  file_name : String
  year : Nat
  category : String
deriving DecidableEq, Repr

/-- `get_meta(file_path)`: basename, year from the leading `YYYY_` pattern with
fallback 2024, and category from the parent directory name. -/
def get_meta (file_path : String) : FileMeta :=
  let file_name := basename file_path
  let parent_folder := basename (dirname file_path)
  { file_name := file_name
  , year := (yearMatch file_name).getD 2024
  , category := parent_folder }

/-! PDF page renderer, from `src/utils.py` and `src/src/utils/pdf_renderer.py`
(`render_pdf_page`, again two identical copies). -/

/-- Abstract rasterized page image. -/
structure PdfImage where
  imageId : Nat
deriving DecidableEq, Repr

/-- Abstract open PDF document: a page count (`len(doc)`) and a rasterizer for a page
(`doc[p].get_pixmap(...)` through PIL). `rasterize p = none` models an exception
raised while rendering page `p`. -/
structure PdfDoc where
  pageCount : Nat
  rasterize : Nat → Option PdfImage

/-- `render_pdf_page(pdf_path, page_number, dpi)`. `openResult` is `none` when
`fitz.open` raises.  Any exception anywhere in the body is caught and turned into a
`None` return, so the embedding is an `Option`-valued total function. -/
def render_pdf_page (openResult : Option PdfDoc) (page_number : Int) : Option PdfImage :=
  match openResult with
  | none => none
  | some doc =>
      let p : Int := if page_number < 0 || (doc.pageCount : Int) ≤ page_number then 0 else page_number
      doc.rasterize p.toNat

/-! Semantic-refinement guardrails of the advanced ingestion pipeline,
from `src/scripts/ingest.py` (`main`, the `USE_SEMANTIC` block). -/

/-- `contains_markdown_table(text)`: Python checks both characters/markers occur. -/
def contains_markdown_table (text : String) : Bool :=
  strContains text "|" && strContains text "---"

/-- Python `text.strip()`: leading and trailing whitespace removed (character
list form). -/
def pyStrip (text : String) : List Char :=
  ((text.data.dropWhile Char.isWhitespace).reverse.dropWhile Char.isWhitespace).reverse

/-- `has_heading(text)`: `text.strip().startswith('#')`. -/
def has_heading (text : String) : Bool :=
  match pyStrip text with
  | [] => false
  | c :: _ => c == '#'

/-- The normative policy keyword list of `contains_policy_keywords`. -/
def policy_words : List String :=
  ["wajib", "harus", "dikecualikan", "tidak berlaku jika",
   "syarat", "ketentuan", "peraturan", "kecuali"]

/-- `contains_policy_keywords(text)`: `any(word in text.lower() for word in policy_words)`. -/
def contains_policy_keywords (text : String) : Bool :=
  policy_words.any (fun w => strContains (strLower text) w)

/-- One leaf chunk passing through the semantic-refinement loop of
`scripts/ingest.py`.  `semanticSplit` abstracts
`semantic_parser.get_nodes_from_documents` on a one-document input; `none` models
that call raising (the bare `except` keeps the original node).  Returns the list of
output chunk texts together with a flag recording whether the semantic splitter was
invoked on this chunk. -/
def refineChunk (semanticSplit : String → Option (List String)) (text : String) :
    List String × Bool :=
  if contains_markdown_table text then ([text], false)
  else if has_heading text then ([text], false)
  else if contains_policy_keywords text ∧ text.length < 1000 then ([text], false)
  else if 600 < text.length then
    match semanticSplit text with
    | some chunks => if 1 < chunks.length then (chunks, true) else ([text], true)
    | none => ([text], true)
  else ([text], false)

/-! Chat handler, from `src/src/core/chat_handler.py`, with the constants of
`src/src/config/settings.py`. -/

namespace Settings

def MAX_RETRIES : Nat := 3

def RETRY_WAIT_BASE : Nat := 25

def TOP_SOURCES_TO_DISPLAY : Nat := 3

/-- Fallback models `(model_name, TPM_limit, description)`, ordered by priority. -/
def FALLBACK_MODELS : List (String × Nat × String) :=
  [("meta-llama/llama-4-scout-17b-16e-instruct", 30000, "Llama 4 Scout"),
   ("llama-3.1-8b-instant", 6000, "Llama 3.1 8B")]

end Settings

/-- A retrieved node as seen by `_extract_sources`: the metadata entries it reads
(`metadata.get` may miss, hence `Option`) and the similarity score (`node.score`,
`None` allowed; modelled as a rational). -/
structure SourceNode where
  file_name : Option String
  page_label : Option String
  category : Option String
  score : Option ℚ
deriving DecidableEq, Repr

/-- A citation record produced by `_extract_sources`. -/
structure SourceInfo where
  file_name : String
  page : String
  category : String
  score : String
deriving DecidableEq, Repr

/-- Round half to even, the rounding Python applies when formatting a float with
`:.0%` (the repository formats exact-looking decimals, so the rational model of the
score is adequate). -/
def roundHalfEven (q : ℚ) : ℤ :=
  let f := q.floor
  if q - (f : ℚ) < 1 / 2 then f
  else if (1 : ℚ) / 2 < q - (f : ℚ) then f + 1
  else if f % 2 = 0 then f else f + 1

/-- Python `f"{node.score:.0%}" if node.score is not None else "N/A"`: multiply by
100, round to zero decimals, append a percent sign. -/
def formatScore : Option ℚ → String
  | none => "N/A"
  | some s => toString (roundHalfEven (s * 100)) ++ "%"

/-- One citation record from one node (`_extract_sources` loop body). -/
def mkSourceInfo (node : SourceNode) : SourceInfo :=
  { file_name := node.file_name.getD "Unknown"
  , page := node.page_label.getD "Unknown"
  , category := node.category.getD "Unknown"
  , score := formatScore node.score }

/-- `ChatHandler._extract_sources`. -/
def extract_sources (source_nodes : List SourceNode) : List SourceInfo :=
  source_nodes.map mkSourceInfo

/-- The value of a successful `chat_engine.chat` call: answer text plus retrieved
source nodes in retrieval-rank order. -/
structure ChatResponse where
  response : String
  source_nodes : List SourceNode
deriving DecidableEq, Repr

/-- Outcome of one `chat_engine.chat` invocation: a response, or an exception whose
`str` is `errMsg`. -/
inductive ChatOutcome where
  | success (resp : ChatResponse)
  | failure (errMsg : String)
deriving DecidableEq, Repr

/-- External environment of one `process_query` call: the outcome of the k-th chat
invocation and of the k-th fallback model switch attempt (`none` means the `Groq`
construction succeeded, `some msg` that it raised with message `msg`). -/
structure Env where
  chat : Nat → ChatOutcome
  switchFail : Nat → Option String

/-- The `(response_text, sources_data, error_message)` triple `process_query`
returns. -/
structure QueryResult where
  response : Option String
  sources : Option (List SourceInfo)
  error : Option String
deriving DecidableEq, Repr

/-- Observable side effects of one `process_query` run, in order. -/
inductive Event where
  | chatCall
  | modelSwitch (modelIndex : Int)
  | sleepFor (seconds : Nat)
deriving DecidableEq, Repr

/-- Rate-limit classification: `"429" in e or "RESOURCE_EXHAUSTED" in e or "rate" in
e.lower()`. -/
def isRateLimitError (e : String) : Bool :=
  strContains e "429" || strContains e "RESOURCE_EXHAUSTED" || strContains (strLower e) "rate"

/-- Daily-quota classification: `"tokens per day" in e.lower() or "tpd" in e.lower()`. -/
def isDailyQuotaError (e : String) : Bool :=
  strContains (strLower e) "tokens per day" || strContains (strLower e) "tpd"

/-- Context-overflow classification: `"context size" in e.lower() and "not
non-negative" in e.lower()`. -/
def isContextSizeError (e : String) : Bool :=
  strContains (strLower e) "context size" && strContains (strLower e) "not non-negative"

def dailyQuotaMsg : String :=
  "🚫 **Kuota harian sudah habis!**\n\nMaaf, sistem telah mencapai batas kuota API harian. Silakan coba lagi besok.\n\n_Terima kasih atas pengertiannya :)._"

def serverBusyMsg : String :=
  "⚠️ Server sedang sibuk. Silakan coba lagi dalam beberapa saat."

def contextOverflowMsg : String :=
  "⚠️ Maaf, pertanyaan Anda terlalu kompleks atau dokumen yang relevan terlalu besar. Silakan coba dengan pertanyaan yang lebih singkat atau spesifik."

def otherErrorMsg (e : String) : String := "Terjadi kesalahan: " ++ e

def maxRetriesMsg : String := "Max retries exceeded"

/-- The successful return `(response.response, sources_data, None)`. -/
def successResult (resp : ChatResponse) : QueryResult :=
  { response := some resp.response
  , sources := some (extract_sources (resp.source_nodes.take Settings.TOP_SOURCES_TO_DISPLAY))
  , error := none }

/-- An error return `(None, None, error_msg)`. -/
def fatalResult (msg : String) : QueryResult :=
  { response := none, sources := none, error := some msg }

/-- The `while retry_count < max_retries` loop of `ChatHandler.process_query`,
transcribed branch by branch.  `fuel = maxRetries - retryCount` (every iteration
that does not return increments `retry_count` by exactly one, so the loop condition
is equivalent to `fuel > 0`); `callIdx` / `switchIdx` index into the environment
oracles.  Returns the result triple and the ordered trace of chat calls, successful
model switches, and backoff sleeps. -/
def processQueryLoop (env : Env) (fallbackModels : List (String × Nat × String))
    (maxRetries : Nat) :
    Nat → Nat → Int → Bool → Nat → Nat → QueryResult × List Event
  | 0, _, _, _, _, _ => (fatalResult maxRetriesMsg, [])
  | fuel + 1, retryCount, modelIndex, rateLimitEnc, callIdx, switchIdx =>
    match env.chat callIdx with
    | ChatOutcome.success resp => (successResult resp, [Event.chatCall])
    | ChatOutcome.failure e =>
      if isRateLimitError e then
        -- rate-limit handler (lines 65-143)
        let isDaily := isDailyQuotaError e
        let rc := retryCount + 1
        if modelIndex < (fallbackModels.length : Int) - 1 then
          -- try the next fallback model
          let mi := modelIndex + 1
          match env.switchFail switchIdx with
          | none =>
              -- switch succeeded: retry immediately with the new model
              let rest := processQueryLoop env fallbackModels maxRetries fuel rc mi true
                (callIdx + 1) (switchIdx + 1)
              (rest.1, Event.chatCall :: Event.modelSwitch mi :: rest.2)
          | some fe =>
              if isDaily || strContains (strLower fe) "tokens per day" then
                (fatalResult dailyQuotaMsg, [Event.chatCall])
              else
                -- fall through to lines 113-143 with the incremented model index
                if rc < maxRetries ∧ (fallbackModels.length : Int) - 1 ≤ mi then
                  if isDaily then (fatalResult dailyQuotaMsg, [Event.chatCall])
                  else
                    let w := Settings.RETRY_WAIT_BASE * rc
                    let rest := processQueryLoop env fallbackModels maxRetries fuel rc mi true
                      (callIdx + 1) (switchIdx + 1)
                    (rest.1, Event.chatCall :: Event.sleepFor w :: rest.2)
                else if maxRetries ≤ rc then
                  if isDaily then (fatalResult dailyQuotaMsg, [Event.chatCall])
                  else (fatalResult serverBusyMsg, [Event.chatCall])
                else
                  let rest := processQueryLoop env fallbackModels maxRetries fuel rc mi true
                    (callIdx + 1) (switchIdx + 1)
                  (rest.1, Event.chatCall :: rest.2)
        else
          -- no unused fallback model: lines 113-143 with the unchanged model index
          if rc < maxRetries ∧ (fallbackModels.length : Int) - 1 ≤ modelIndex then
            if isDaily then (fatalResult dailyQuotaMsg, [Event.chatCall])
            else
              let w := Settings.RETRY_WAIT_BASE * rc
              let rest := processQueryLoop env fallbackModels maxRetries fuel rc modelIndex true
                (callIdx + 1) switchIdx
              (rest.1, Event.chatCall :: Event.sleepFor w :: rest.2)
          else if maxRetries ≤ rc then
            if isDaily then (fatalResult dailyQuotaMsg, [Event.chatCall])
            else (fatalResult serverBusyMsg, [Event.chatCall])
          else
            let rest := processQueryLoop env fallbackModels maxRetries fuel rc modelIndex true
              (callIdx + 1) switchIdx
            (rest.1, Event.chatCall :: rest.2)
      else if isContextSizeError e then
        -- context-size handler (lines 147-165)
        if rateLimitEnc then (fatalResult dailyQuotaMsg, [Event.chatCall])
        else (fatalResult contextOverflowMsg, [Event.chatCall])
      else
        -- any other exception (lines 166-169)
        (fatalResult (otherErrorMsg e), [Event.chatCall])

/-- `ChatHandler.process_query` with the chat engine and model-switch effects made
explicit as an environment.  Initial state: `retry_count = 0`,
`current_model_index = -1`, `rate_limit_encountered = False`. -/
def process_query (env : Env) (fallbackModels : List (String × Nat × String))
    (maxRetries : Nat) : QueryResult × List Event :=
  processQueryLoop env fallbackModels maxRetries maxRetries 0 (-1) false 0 0

/-- Number of chat-engine invocations recorded in a trace. -/
def countChatCalls : List Event → Nat
  | [] => 0
  | Event.chatCall :: t => countChatCalls t + 1
  | _ :: t => countChatCalls t

/-- The backoff sleeps of a trace, in order. -/
def sleepsOf (t : List Event) : List Nat :=
  t.filterMap (fun e => match e with | Event.sleepFor s => some s | _ => none)

/-- The successful model switches of a trace, in order. -/
def switchesOf (t : List Event) : List Int :=
  t.filterMap (fun e => match e with | Event.modelSwitch i => some i | _ => none)

/-! Concrete error strings and environments used to instantiate the theorems. -/

/-- A genuine context-overflow exception message (matches the context-size branch and
none of the rate-limit substrings). -/
def ctxErr : String := "Calculated available context size -12345 was not non-negative"

/-- A transient per-minute rate-limit message (contains 429 but no daily-quota
marker). -/
def transientErr : String :=
  "Error code: 429 - Rate limit reached for model llama-3.3-70b-versatile, please try again in 20s"

/-- A daily-quota rate-limit message (contains both 429 and the tokens-per-day
marker). -/
def dailyErr : String :=
  "Error code: 429 - Rate limit reached on tokens per day (TPD): limit 100000, used 100000"

/-- A successful response with no retrieved nodes. -/
def respOk : ChatResponse := { response := "Jawaban dari dokumen.", source_nodes := [] }

/-- Environment whose first chat call raises a context-overflow error and whose later
calls would succeed. -/
def envCtx : Env :=
  { chat := fun n => if n = 0 then ChatOutcome.failure ctxErr else ChatOutcome.success respOk
  , switchFail := fun _ => none }

/-- Environment whose first chat call raises a daily-quota rate-limit error and whose
later calls succeed; model switches succeed. -/
def envDaily : Env :=
  { chat := fun n => if n = 0 then ChatOutcome.failure dailyErr else ChatOutcome.success respOk
  , switchFail := fun _ => none }

/-- Environment in which every chat call raises a transient rate-limit error; model
switches succeed. -/
def envTransient : Env :=
  { chat := fun _ => ChatOutcome.failure transientErr
  , switchFail := fun _ => none }

/-- Five retrieved nodes, including a missing score and a 0.873 score. -/
def respCite : ChatResponse :=
  { response := "Jawaban dengan sitasi."
  , source_nodes :=
      [ { file_name := some "2024_Kurikulum_TI.pdf", page_label := some "3",
          category := some "02_Kurikulum", score := some (873 / 1000) }
      , { file_name := some "2020_Pedoman_Akademik.pdf", page_label := some "10",
          category := some "01_Pedoman", score := none }
      , { file_name := some "2022_Peraturan_Skripsi.pdf", page_label := some "2",
          category := some "03_Peraturan", score := some (1 / 2) }
      , { file_name := some "2021_Panduan_PKL.pdf", page_label := some "7",
          category := some "04_Panduan", score := some (9 / 10) }
      , { file_name := some "2023_Kalender_Akademik.pdf", page_label := some "1",
          category := some "05_Kalender", score := some (1 / 4) } ] }

/-- Environment whose chat calls always succeed with five retrieved nodes. -/
def envCite : Env :=
  { chat := fun _ => ChatOutcome.success respCite
  , switchFail := fun _ => none }

/-- A semantic splitter that would always split a chunk in two, used to show the
guardrails ignore it. -/
def semTwo : String → Option (List String) := fun t => some [t, t]

/-- A semantic splitter that returns a single node unchanged. -/
def semOne : String → Option (List String) := fun t => some [t]

/-- A chunk containing a markdown table. -/
def tableText : String := "| MK | SKS |\n|---|---|\n| Algoritma | 3 |"

/-- A chunk starting with a markdown heading. -/
def headingText : String := "# Bab 2 Ketentuan Umum"

/-- A short chunk containing a normative policy keyword. -/
def policyText : String := "Mahasiswa wajib mengambil minimal 144 sks."

/-- A 601-character chunk triggering none of the guardrails, hence eligible for
semantic splitting. -/
def longText : String := String.mk (List.replicate 601 'z')

/-- A three-page document whose pages all rasterize successfully. -/
def docW : PdfDoc := { pageCount := 3, rasterize := fun p => some { imageId := p } }

/-! Helper lemmas about the retry loop. -/

/-- Every result of the retry loop is either a success triple or an error triple. -/
theorem loop_result_cases (env : Env) (fb : List (String × Nat × String)) (mr : Nat) :
    ∀ fuel rc mi rle ci si,
      (∃ resp, (processQueryLoop env fb mr fuel rc mi rle ci si).1 = successResult resp) ∨
      (∃ m, (processQueryLoop env fb mr fuel rc mi rle ci si).1 = fatalResult m) := by
  intro fuel
  induction fuel with
  | zero =>
      intro rc mi rle ci si
      right
      exact ⟨_, rfl⟩
  | succ k ih =>
      intro rc mi rle ci si
      simp only [processQueryLoop]
      repeat'
        first
          | exact Or.inl ⟨_, rfl⟩
          | exact Or.inr ⟨_, rfl⟩
          | exact ih _ _ _ _ _
          | split

/-- The retry loop makes at most `fuel` chat-engine invocations. -/
theorem loop_chatCalls_le (env : Env) (fb : List (String × Nat × String)) (mr : Nat) :
    ∀ fuel rc mi rle ci si,
      countChatCalls (processQueryLoop env fb mr fuel rc mi rle ci si).2 ≤ fuel := by
  intro fuel
  induction fuel with
  | zero =>
      intro rc mi rle ci si
      simp [processQueryLoop, countChatCalls]
  | succ k ih =>
      intro rc mi rle ci si
      simp only [processQueryLoop]
      repeat' split
      all_goals
        simp only [countChatCalls]
        first
          | omega
          | (have h1 := ih (rc + 1) (mi + 1) true (ci + 1) (si + 1)
             have h2 := ih (rc + 1) mi true (ci + 1) si
             omega)

/-- With fuel at least one, the trace starts with a chat call. -/
theorem loop_trace_starts_chat (env : Env) (fb : List (String × Nat × String)) (mr : Nat) :
    ∀ fuel rc mi rle ci si, 1 ≤ fuel →
      ∃ t, (processQueryLoop env fb mr fuel rc mi rle ci si).2 = Event.chatCall :: t := by
  intro fuel
  induction fuel with
  | zero => intro rc mi rle ci si h; omega
  | succ k _ =>
      intro rc mi rle ci si _
      simp only [processQueryLoop]
      repeat'
        first
          | exact ⟨_, rfl⟩
          | split

/-- One loop step on a rate-limit failure with an unused fallback model and a
successful switch: the model index advances and the loop retries immediately. -/
theorem loop_step_rate_switch (env : Env) (fb : List (String × Nat × String))
    (mr fuel rc : Nat) (mi : Int) (rle : Bool) (ci si : Nat) (e : String)
    (h : env.chat ci = ChatOutcome.failure e) (hrl : isRateLimitError e = true)
    (hmi : mi < (fb.length : Int) - 1) (hs : env.switchFail si = none) :
    processQueryLoop env fb mr (fuel + 1) rc mi rle ci si =
      ((processQueryLoop env fb mr fuel (rc + 1) (mi + 1) true (ci + 1) (si + 1)).1,
       Event.chatCall :: Event.modelSwitch (mi + 1) ::
         (processQueryLoop env fb mr fuel (rc + 1) (mi + 1) true (ci + 1) (si + 1)).2) := by
  simp [processQueryLoop, h, hrl, hmi, hs]

/-- One loop step on a daily-quota rate-limit failure with no unused fallback model:
the loop terminates at once with the fatal daily-quota message. -/
theorem loop_step_daily_exhausted (env : Env) (fb : List (String × Nat × String))
    (mr fuel rc : Nat) (mi : Int) (rle : Bool) (ci si : Nat) (e : String)
    (h : env.chat ci = ChatOutcome.failure e) (hrl : isRateLimitError e = true)
    (hd : isDailyQuotaError e = true) (hmi : ¬ mi < (fb.length : Int) - 1) :
    processQueryLoop env fb mr (fuel + 1) rc mi rle ci si =
      (fatalResult dailyQuotaMsg, [Event.chatCall]) := by
  have hmi2 : (fb.length : Int) - 1 ≤ mi := by omega
  simp [processQueryLoop, h, hrl, hd, hmi, hmi2]
  intro h1 h2
  exact absurd h2 (by omega)

/-- Batteries floor of a rational coincides with the Mathlib floor. -/
theorem ratFloor_eq_intFloor (q : ℚ) : q.floor = ⌊q⌋ := by
  rw [Rat.floor_def', Rat.floor_def]

/-- Round-half-even at a value whose fractional part is below one half rounds down. -/
theorem roundHalfEven_eq_of_lt_half (q : ℚ) (n : ℤ) (h1 : (n : ℚ) ≤ q)
    (h2 : q - (n : ℚ) < 1 / 2) : roundHalfEven q = n := by
  have hf : q.floor = n := by
    rw [ratFloor_eq_intFloor]
    rw [Int.floor_eq_iff]
    constructor
    · exact h1
    · linarith
  unfold roundHalfEven
  rw [hf]
  rw [if_pos h2]

/-! Claim theorems. -/

/-- C1 (counterexample): on a context-overflow exception with no prior rate limit,
`process_query` reports the fatal context-overflow message after a single chat
invocation — no memory reset and no retry happen, even though the environment would
have answered a second invocation successfully. -/
theorem C1_counterexample :
    process_query envCtx Settings.FALLBACK_MODELS Settings.MAX_RETRIES =
      (fatalResult contextOverflowMsg, [Event.chatCall]) ∧
    envCtx.chat 1 = ChatOutcome.success respOk := by
  decide

/-- C1 (amended): for every query whose first chat invocation raises a
context-window-overflow exception (and no rate-limit classification applies), the
handler performs no automatic recovery: it immediately returns the fatal
context-overflow error, invoking the chat engine exactly once. -/
theorem C1_context_overflow_immediately_fatal (env : Env)
    (fb : List (String × Nat × String)) (mr : Nat) (e : String) (hmr : 1 ≤ mr)
    (h0 : env.chat 0 = ChatOutcome.failure e) (hrl : isRateLimitError e = false)
    (hctx : isContextSizeError e = true) :
    process_query env fb mr = (fatalResult contextOverflowMsg, [Event.chatCall]) := by
  obtain ⟨k, rfl⟩ : ∃ k, mr = k + 1 := ⟨mr - 1, by omega⟩
  simp [process_query, processQueryLoop, h0, hrl, hctx]

/-- C1 (witness): the amended theorem applied to the concrete context-overflow
environment. -/
theorem C1_witness :
    1 ≤ Settings.MAX_RETRIES ∧
    process_query envCtx Settings.FALLBACK_MODELS Settings.MAX_RETRIES =
      (fatalResult contextOverflowMsg, [Event.chatCall]) :=
  ⟨by decide,
   C1_context_overflow_immediately_fatal envCtx Settings.FALLBACK_MODELS
     Settings.MAX_RETRIES ctxErr (by decide) rfl (by decide) (by decide)⟩

/-- C4: `process_query` always returns the result triple, and on every terminal
return exactly one of the answer text and the error message is non-null. -/
theorem C4_exactly_one_of_answer_error (env : Env) (fb : List (String × Nat × String))
    (mr : Nat) :
    ((process_query env fb mr).1.response.isSome = true ∧
       (process_query env fb mr).1.error = none) ∨
    ((process_query env fb mr).1.response = none ∧
       (process_query env fb mr).1.error.isSome = true) := by
  rcases loop_result_cases env fb mr mr 0 (-1) false 0 0 with ⟨resp, h⟩ | ⟨m, h⟩
  · left
    have hh : (process_query env fb mr).1 = successResult resp := h
    rw [hh]
    exact ⟨rfl, rfl⟩
  · right
    have hh : (process_query env fb mr).1 = fatalResult m := h
    rw [hh]
    exact ⟨rfl, rfl⟩

/-- C10: the chat engine is invoked at most `maxRetries` times per `process_query`
call, and when the loop runs out of retries without a terminal return it produces the
fallback result `(None, None, "Max retries exceeded")` (the fuel-zero equation); the
loop itself is a total function, so every call terminates. -/
theorem C10_retry_bound (env : Env) (fb : List (String × Nat × String)) (mr rc : Nat)
    (mi : Int) (rle : Bool) (ci si : Nat) :
    countChatCalls (process_query env fb mr).2 ≤ mr ∧
    processQueryLoop env fb mr 0 rc mi rle ci si = (fatalResult maxRetriesMsg, []) :=
  ⟨loop_chatCalls_le env fb mr mr 0 (-1) false 0 0, rfl⟩

/-- C2 (counterexample): on a daily-quota rate-limit error with alternative fallback
models configured, `process_query` does not surface any alternatives and does not
stop: it switches to the next fallback model and performs a further automatic retry
(a second chat invocation) which here succeeds. -/
theorem C2_counterexample :
    isDailyQuotaError dailyErr = true ∧
    process_query envDaily Settings.FALLBACK_MODELS Settings.MAX_RETRIES =
      (successResult respOk, [Event.chatCall, Event.modelSwitch 0, Event.chatCall]) := by
  decide

/-- C2 (amended): on a daily-quota rate-limit error, if no fallback model is
configured the handler terminates at once with the fatal daily-quota message (single
chat call, no sleep, no retry); if an unused fallback model exists and the switch
succeeds, the handler switches models and retries immediately — it never surfaces
alternatives (the returned triple has no alternative-models component). -/
theorem C2_daily_quota_behaviour (env : Env) (mr : Nat) (e : String)
    (fb : List (String × Nat × String)) (h0 : env.chat 0 = ChatOutcome.failure e)
    (hrl : isRateLimitError e = true) (hd : isDailyQuotaError e = true) :
    (1 ≤ mr → process_query env [] mr = (fatalResult dailyQuotaMsg, [Event.chatCall])) ∧
    (2 ≤ mr → 1 ≤ fb.length → env.switchFail 0 = none →
      ∃ t, (process_query env fb mr).2 =
        Event.chatCall :: Event.modelSwitch 0 :: Event.chatCall :: t) := by
  constructor
  · intro hmr
    obtain ⟨k, rfl⟩ : ∃ k, mr = k + 1 := ⟨mr - 1, by omega⟩
    exact loop_step_daily_exhausted env [] (k + 1) k 0 (-1) false 0 0 e h0 hrl hd
      (by decide)
  · intro hmr hfb hsw
    obtain ⟨k, rfl⟩ : ∃ k, mr = k + 2 := ⟨mr - 2, by omega⟩
    have hmi : (-1 : Int) < (fb.length : Int) - 1 := by omega
    obtain ⟨t, ht⟩ := loop_trace_starts_chat env fb (k + 2) (k + 1) 1 0 true 1 1
      (by omega)
    have step : process_query env fb (k + 2) =
        ((processQueryLoop env fb (k + 2) (k + 1) 1 0 true 1 1).1,
         Event.chatCall :: Event.modelSwitch 0 ::
           (processQueryLoop env fb (k + 2) (k + 1) 1 0 true 1 1).2) :=
      loop_step_rate_switch env fb (k + 2) (k + 1) 0 (-1) false 0 0 e h0 hrl hmi hsw
    refine ⟨t, ?_⟩
    rw [step, ht]

/-- C2 (witness): the amended theorem applied to the concrete daily-quota
environment, once with no fallback models and once with the two configured ones. -/
theorem C2_witness :
    process_query envDaily [] Settings.MAX_RETRIES =
      (fatalResult dailyQuotaMsg, [Event.chatCall]) ∧
    ∃ t, (process_query envDaily Settings.FALLBACK_MODELS Settings.MAX_RETRIES).2 =
        Event.chatCall :: Event.modelSwitch 0 :: Event.chatCall :: t :=
  ⟨(C2_daily_quota_behaviour envDaily Settings.MAX_RETRIES dailyErr
      Settings.FALLBACK_MODELS rfl (by decide) (by decide)).1 (by decide),
   (C2_daily_quota_behaviour envDaily Settings.MAX_RETRIES dailyErr
      Settings.FALLBACK_MODELS rfl (by decide) (by decide)).2 (by decide) (by decide)
      rfl⟩

/-- C3 (counterexample): three consecutive transient rate-limit failures with the two
configured fallback models produce no backoff sleeps at all (in particular not the
claimed sleeps of base times one and base times two); the run is two immediate
switches and then the fatal server-busy message. -/
theorem C3_counterexample :
    sleepsOf (process_query envTransient Settings.FALLBACK_MODELS
        Settings.MAX_RETRIES).2 ≠
      [Settings.RETRY_WAIT_BASE * 1, Settings.RETRY_WAIT_BASE * 2] ∧
    (process_query envTransient Settings.FALLBACK_MODELS Settings.MAX_RETRIES).1.error
      = some serverBusyMsg ∧
    switchesOf (process_query envTransient Settings.FALLBACK_MODELS
        Settings.MAX_RETRIES).2 = [0, 1] := by
  decide

/-- C3 (amended): with `max_retries = 3` and the two configured fallback models,
three consecutive transient rate-limit failures produce exactly two immediate model
switches (no sleeps anywhere) and terminate with the fatal server-busy message; the
claimed escalating sleeps never occur because the two switches consume the retry
budget before the backoff branch can be reached. -/
theorem C3_three_transient_failures (env : Env) (e : String)
    (h0 : env.chat 0 = ChatOutcome.failure e) (h1 : env.chat 1 = ChatOutcome.failure e)
    (h2 : env.chat 2 = ChatOutcome.failure e) (hrl : isRateLimitError e = true)
    (hd : isDailyQuotaError e = false) (hs0 : env.switchFail 0 = none)
    (hs1 : env.switchFail 1 = none) :
    process_query env Settings.FALLBACK_MODELS Settings.MAX_RETRIES =
      (fatalResult serverBusyMsg,
       [Event.chatCall, Event.modelSwitch 0, Event.chatCall, Event.modelSwitch 1,
        Event.chatCall]) ∧
    sleepsOf (process_query env Settings.FALLBACK_MODELS Settings.MAX_RETRIES).2
      = [] := by
  have key : process_query env Settings.FALLBACK_MODELS Settings.MAX_RETRIES =
      (fatalResult serverBusyMsg,
       [Event.chatCall, Event.modelSwitch 0, Event.chatCall, Event.modelSwitch 1,
        Event.chatCall]) := by
    simp [process_query, processQueryLoop, h0, h1, h2, hrl, hd, hs0, hs1,
      Settings.FALLBACK_MODELS, Settings.MAX_RETRIES]
  refine ⟨key, ?_⟩
  rw [key]
  rfl

/-- C3 (witness): the amended theorem applied to the concrete always-transient
environment. -/
theorem C3_witness :
    process_query envTransient Settings.FALLBACK_MODELS Settings.MAX_RETRIES =
      (fatalResult serverBusyMsg,
       [Event.chatCall, Event.modelSwitch 0, Event.chatCall, Event.modelSwitch 1,
        Event.chatCall]) :=
  (C3_three_transient_failures envTransient transientErr rfl rfl rfl (by decide)
    (by decide) rfl rfl).1

/-- C5: the guardrails apply in priority order and each is a terminal keep-as-is
decision: a chunk containing a markdown table marker is never subdivided regardless
of size; otherwise a chunk starting with a heading marker is never subdivided;
otherwise a chunk containing a policy keyword below 1000 units is never subdivided —
in each case, whatever the semantic splitter would do. -/
theorem C5_guardrails_terminal (sem : String → Option (List String)) (text : String) :
    (contains_markdown_table text = true → refineChunk sem text = ([text], false)) ∧
    (contains_markdown_table text = false → has_heading text = true →
       refineChunk sem text = ([text], false)) ∧
    (contains_markdown_table text = false → has_heading text = false →
       contains_policy_keywords text = true → text.length < 1000 →
       refineChunk sem text = ([text], false)) := by
  refine ⟨fun h => ?_, fun h1 h2 => ?_, fun h1 h2 h3 h4 => ?_⟩
  · simp [refineChunk, h]
  · simp [refineChunk, h1, h2]
  · simp [refineChunk, h1, h2, h3, h4]

/-- C5 (witness): the three guardrails applied to a table chunk, a heading chunk and
a short policy chunk, against a splitter that would otherwise split in two. -/
theorem C5_witness :
    refineChunk semTwo tableText = ([tableText], false) ∧
    refineChunk semTwo headingText = ([headingText], false) ∧
    refineChunk semTwo policyText = ([policyText], false) :=
  ⟨(C5_guardrails_terminal semTwo tableText).1 (by decide),
   (C5_guardrails_terminal semTwo headingText).2.1 (by decide) (by decide),
   (C5_guardrails_terminal semTwo policyText).2.2 (by decide) (by decide) (by decide)
     (by decide)⟩

/-- C6: only chunks longer than 600 units are ever submitted to the semantic
splitter, and whenever the splitter yields a single output node the original chunk is
kept unchanged. -/
theorem C6_eligibility (sem : String → Option (List String)) (text : String) :
    ((refineChunk sem text).2 = true → 600 < text.length) ∧
    (∀ cs, sem text = some cs → cs.length = 1 → (refineChunk sem text).1 = [text]) := by
  constructor
  · intro h
    unfold refineChunk at h
    split_ifs at h with h1 h2 h3 h4
    exact h4
  · intro cs hcs hlen
    unfold refineChunk
    split_ifs with h1 h2 h3 h4 <;> first | rfl | (rw [hcs]; simp [hlen])

/-- C6 (witness): a 601-unit chunk is eligible (the splitter flag is set and the
theorem yields the length bound), and a splitter returning a single node leaves the
chunk unchanged. -/
theorem C6_witness :
    600 < longText.length ∧ (refineChunk semOne longText).1 = [longText] :=
  ⟨(C6_eligibility semOne longText).1 (by decide),
   (C6_eligibility semOne longText).2 [longText] rfl (by decide)⟩

/-- C7: a successful query with at least five retrieved nodes returns exactly the
first three nodes as citations, in retrieval-rank order, and the citation score is
"N/A" for a missing similarity score and "87%" for a score of 0.873. -/
theorem C7_citations (env : Env) (resp : ChatResponse) (mr : Nat) (hmr : 1 ≤ mr)
    (h0 : env.chat 0 = ChatOutcome.success resp)
    (h5 : 5 ≤ resp.source_nodes.length) :
    (process_query env Settings.FALLBACK_MODELS mr).1.sources =
      some (extract_sources (resp.source_nodes.take 3)) ∧
    (extract_sources (resp.source_nodes.take 3)).length = 3 ∧
    (∀ i, i < 3 → (extract_sources (resp.source_nodes.take 3))[i]? =
        (resp.source_nodes[i]?).map mkSourceInfo) ∧
    formatScore none = "N/A" ∧
    formatScore (some (873 / 1000 : ℚ)) = "87%" := by
  obtain ⟨k, rfl⟩ : ∃ k, mr = k + 1 := ⟨mr - 1, by omega⟩
  refine ⟨?_, ?_, ?_, rfl, ?_⟩
  · simp [process_query, processQueryLoop, h0, successResult,
      Settings.TOP_SOURCES_TO_DISPLAY]
  · simp [extract_sources]
    omega
  · intro i hi
    simp [extract_sources, List.getElem?_take, hi]
  · have h87 : roundHalfEven (873 / 1000 * 100 : ℚ) = 87 :=
      roundHalfEven_eq_of_lt_half _ 87 (by norm_num) (by norm_num)
    simp only [formatScore, h87]
    rfl

/-- C7 (witness): the citation contract applied to the concrete five-node successful
environment. -/
theorem C7_witness :
    (process_query envCite Settings.FALLBACK_MODELS Settings.MAX_RETRIES).1.sources =
      some (extract_sources (respCite.source_nodes.take 3)) ∧
    (extract_sources (respCite.source_nodes.take 3)).length = 3 ∧
    formatScore none = "N/A" ∧
    formatScore (some (873 / 1000 : ℚ)) = "87%" := by
  have h := C7_citations envCite respCite Settings.MAX_RETRIES (by decide) rfl
    (by decide)
  exact ⟨h.1, h.2.1, h.2.2.2.1, h.2.2.2.2⟩

/-- C8: when the base name of the file path starts with four digits followed by an
underscore, `get_meta` returns those digits parsed as an integer in the year field;
for every other base name it returns the fixed default 2024 (and, being a total
function, it raises no error on malformed names). -/
theorem C8_year_extraction (path : String) :
    (∀ c1 c2 c3 c4 rest,
        (basename path).data = c1 :: c2 :: c3 :: c4 :: '_' :: rest →
        c1.isDigit = true → c2.isDigit = true → c3.isDigit = true →
        c4.isDigit = true →
        (get_meta path).year =
          digitVal c1 * 1000 + digitVal c2 * 100 + digitVal c3 * 10 + digitVal c4) ∧
    ((¬ ∃ c1 c2 c3 c4 rest,
        (basename path).data = c1 :: c2 :: c3 :: c4 :: '_' :: rest ∧
        c1.isDigit = true ∧ c2.isDigit = true ∧ c3.isDigit = true ∧
        c4.isDigit = true) →
      (get_meta path).year = 2024) := by
  constructor
  · intro c1 c2 c3 c4 rest h hd1 hd2 hd3 hd4
    simp only [get_meta, yearMatch]
    rw [h]
    simp [hd1, hd2, hd3, hd4]
  · intro hne
    have hgd : (get_meta path).year = (yearMatch (basename path)).getD 2024 := rfl
    rw [hgd]
    rcases hy : yearMatch (basename path) with _ | y
    · simp
    · exfalso
      apply hne
      unfold yearMatch at hy
      rcases hls : (basename path).data with
        _ | ⟨c1, _ | ⟨c2, _ | ⟨c3, _ | ⟨c4, _ | ⟨c5, rest⟩⟩⟩⟩⟩ <;>
        rw [hls] at hy
      · exact absurd hy (by simp)
      · exact absurd hy (by simp)
      · exact absurd hy (by simp)
      · exact absurd hy (by simp)
      · exact absurd hy (by simp)
      · have hy2 : (if c1.isDigit = true ∧ c2.isDigit = true ∧ c3.isDigit = true ∧
            c4.isDigit = true ∧ c5 = '_' then
              some (digitVal c1 * 1000 + digitVal c2 * 100 + digitVal c3 * 10 +
                digitVal c4)
            else none) = some y := hy
        split_ifs at hy2 with hc
        obtain ⟨hd1, hd2, hd3, hd4, hc5⟩ := hc
        exact ⟨c1, c2, c3, c4, rest, by rw [hc5], hd1, hd2, hd3, hd4⟩

/-- C8 (witness): year extraction on a conforming name and on a non-conforming
name. -/
theorem C8_witness :
    (get_meta "dataset/02_Kurikulum/2019_Kurikulum_TI.pdf").year = 2019 ∧
    (get_meta "x").year = 2024 := by
  constructor
  · have h := (C8_year_extraction "dataset/02_Kurikulum/2019_Kurikulum_TI.pdf").1
      '2' '0' '1' '9' ("Kurikulum_TI.pdf".data) (by decide) (by decide) (by decide)
      (by decide) (by decide)
    exact h.trans (by decide)
  · apply (C8_year_extraction "x").2
    rintro ⟨c1, c2, c3, c4, rest, heq, -, -, -, -⟩
    rw [show (basename "x").data = ['x'] from by decide] at heq
    simp at heq

/-- C9: a page index outside the valid range is silently replaced by page 0 (so a
valid PDF still yields an image), and any exception — opening or rasterizing — makes
the renderer return the no-image sentinel instead of propagating. -/
theorem C9_clamp_and_no_propagation (doc : PdfDoc) (page_number : Int) :
    ((page_number < 0 ∨ (doc.pageCount : Int) ≤ page_number) →
        render_pdf_page (some doc) page_number = doc.rasterize 0) ∧
    (∀ img, doc.rasterize 0 = some img →
        (page_number < 0 ∨ (doc.pageCount : Int) ≤ page_number) →
        render_pdf_page (some doc) page_number = some img) ∧
    render_pdf_page none page_number = none := by
  refine ⟨fun h => ?_, fun img himg h => ?_, rfl⟩
  · simp [render_pdf_page, h]
  · simp [render_pdf_page, h, himg]

/-- C9 (witness): page index 7 of a three-page document is clamped to page 0 and
still renders an image. -/
theorem C9_witness :
    ((7 : Int) < 0 ∨ (docW.pageCount : Int) ≤ 7) ∧
    render_pdf_page (some docW) 7 = some { imageId := 0 } :=
  ⟨Or.inr (by decide),
   (C9_clamp_and_no_propagation docW 7).2.1 { imageId := 0 } rfl
     (Or.inr (by decide))⟩

end OrdalFilkom
